import Mathlib

/-!
Verification of the core of `yt-sub-rs` (feed parsing, notification
formatting, and the dispatch orchestrator) against its natural-language
specification.

The embedding follows the two source files:

* `core/src/video.rs` — `Video`, `Video::parse_rss`,
  `Video::notification_text`, `Video::format_time_ago`;
* `cli/bin/cmd/run.rs` — `RunArgs::run`, the orchestrator.

Modelling conventions:

* Timestamps (`chrono::DateTime<Utc>`) are modelled as `Int` seconds since
  an arbitrary epoch.  `chrono::Duration::num_hours` / `num_minutes`
  truncate toward zero, which is `Int.tdiv`.
* The external XML-to-JSON conversion (`xmltojson::to_json`) and the
  external date parser (`str::parse::<DateTime<Utc>>`) are parameters of
  type `String → Option Json` and `String → Option Int`: the repository
  treats both as black boxes whose only observable behaviour is success
  or failure.
* A Rust panic (`unwrap`, `expect`, `todo!`) is a distinct outcome from a
  returned `Err`: `ParseOutcome.panicked` vs `ParseOutcome.err`.
-/

/-- A JSON value, as produced by `xmltojson::to_json` (a `serde_json::Value`).
Numbers never matter to the code under verification, so they are kept as
`Int`. -/
inductive Json where
  | null : Json
  | bool (b : Bool) : Json
  | num (n : Int) : Json
  | str (s : String) : Json
  | arr (elems : List Json) : Json
  | obj (fields : List (String × Json)) : Json
deriving Repr

/-- `serde_json` square-bracket indexing `value[key]`: on an object, the
value bound to the key (or `Null` when absent); on any other value,
`Null`. -/
def Json.get : Json → String → Json
  | .obj fields, key =>
    match fields.find? (fun p => p.1 == key) with
    | some p => p.2
    | none => .null
  | _, _ => .null

/-- `serde_json::Value::as_str`. -/
def Json.asStr : Json → Option String
  | .str s => some s
  | _ => none

/-- `serde_json::Value::as_array`. -/
def Json.asArr : Json → Option (List Json)
  | .arr elems => some elems
  | _ => none

/-- The `Video` struct of `core/src/video.rs`, with `published_at`
modelled as `Int` seconds. -/
structure Video where
  channel : String
  channel_handle : Option String
  title : String
  link : String
  published_at : Int
deriving Repr, DecidableEq

/-- Outcome of a Rust function returning `eyre::Result`: a normal return
(`ok`), a returned error (`err`), or a panic raised by
`unwrap`/`expect`/`todo!` (`panicked`).  A panic unwinds past the caller;
it is not an `Err` value. -/
inductive ParseOutcome (α : Type) where
  | ok (value : α) : ParseOutcome α
  | err (msg : String) : ParseOutcome α
  | panicked (msg : String) : ParseOutcome α
deriving Repr, DecidableEq

/-- Whether an outcome is a returned `Err` (not a panic). -/
def ParseOutcome.isErr {α : Type} : ParseOutcome α → Bool
  | .err _ => true
  | _ => false

/-- Whether an outcome is a panic. -/
def ParseOutcome.isPanic {α : Type} : ParseOutcome α → Bool
  | .panicked _ => true
  | _ => false

/-- One iteration of the `for video_data in videos_data` loop of
`Video::parse_rss`: extract `title`, `published` (then parse it as a
date-time) and `link.@href`, panicking (`unwrap` / `expect`) when any is
missing or unparseable.  `parseDT` models `str::parse::<DateTime<Utc>>`. -/
def parseEntry (parseDT : String → Option Int) (channel : String)
    (channel_handle : Option String) (video_data : Json) : ParseOutcome Video :=
  match (video_data.get "title").asStr with
  | none => .panicked "called Option::unwrap on a None value"
  | some title =>
    match (video_data.get "published").asStr with
    | none => .panicked "called Option::unwrap on a None value"
    | some published_str =>
      match parseDT published_str with
      | none => .panicked "Failed to parse DateTime"
      | some published_at =>
        match ((video_data.get "link").get "@href").asStr with
        | none => .panicked "called Option::unwrap on a None value"
        | some link =>
          .ok { channel := channel, channel_handle := channel_handle,
                title := title, link := link, published_at := published_at }

/-- The whole entry loop of `Video::parse_rss`: entries are processed in
order and the first panic aborts the loop (and the function). -/
def parseEntries (parseDT : String → Option Int) (channel : String)
    (channel_handle : Option String) : List Json → ParseOutcome (List Video)
  | [] => .ok []
  | video_data :: rest =>
    match parseEntry parseDT channel channel_handle video_data with
    | .panicked m => .panicked m
    | .err m => .err m
    | .ok video =>
      match parseEntries parseDT channel channel_handle rest with
      | .panicked m => .panicked m
      | .err m => .err m
      | .ok videos => .ok (video :: videos)

/-- `Video::parse_rss` (`core/src/video.rs`).  `to_json` models the
external `xmltojson::to_json`; its failure makes the `expect` panic.  The
channel display name is `json["feed"]["author"]["name"]` (`unwrap`
panics when missing); a feed whose `entry` field is not an array (the
no-videos case) yields `Ok` with the empty vector. -/
def parse_rss (to_json : String → Option Json) (parseDT : String → Option Int)
    (rss_data : String) (channel_handle : Option String) :
    ParseOutcome (List Video) :=
  match to_json rss_data with
  | none => .panicked "Failed to convert XML to JSON"
  | some json =>
    match (((json.get "feed").get "author").get "name").asStr with
    | none => .panicked "called Option::unwrap on a None value"
    | some channel =>
      match ((json.get "feed").get "entry").asArr with
      | none => .ok []
      | some videos_data => parseEntries parseDT channel channel_handle videos_data

/-- `Video::format_time_ago` (`core/src/video.rs`), with the wall clock
`now` made explicit.  `duration.num_hours()` and `num_minutes()` are
whole divisions of the elapsed seconds truncating toward zero
(`Int.tdiv`). -/
def formatTimeAgo (now published_at : Int) : String :=
  let duration := now - published_at
  let hours := duration.tdiv 3600
  let minutes := duration.tdiv 60
  if hours > 0 then
    if hours = 1 then "1 hour ago" else toString hours ++ " hours ago"
  else if minutes > 0 then
    if minutes = 1 then "1 minute ago" else toString minutes ++ " minutes ago"
  else
    "just now"

/-- The `Notifier` enum: `Log()`, `Slack(config)` and the unimplemented
`Telegram`. -/
inductive Notifier where
  | log : Notifier
  | slack (cfg : String) : Notifier
  | telegram : Notifier
deriving Repr, DecidableEq

/-- Result of `Video::notification_text`: the rendered text, or a panic
(the `Telegram` arm is `todo!()`). -/
inductive FmtOutcome where
  | text (s : String) : FmtOutcome
  | panicked (msg : String) : FmtOutcome
deriving Repr, DecidableEq

/-- Rust's `Vec::<String>::join(" ")`. -/
def joinSpace : List String → String
  | [] => ""
  | [s] => s
  | s :: rest => s ++ " " ++ joinSpace rest

/-- `Video::notification_text` (`core/src/video.rs`), with the wall clock
`now` explicit (it feeds `format_time_ago`).  The `Log` arm joins with a
single space: the dash, the handle when non-empty, the markdown
`[title](link)` pair, and a dash-prefixed relative time when the phrase
is non-empty.  The `Slack` arm is a fixed-shape line.  The `Telegram` arm
is `todo!()`, a panic. -/
def notificationText (v : Video) (notifier : Notifier) (now : Int) : FmtOutcome :=
  let time_ago := formatTimeAgo now v.published_at
  let channel_handle := v.channel_handle.getD ""
  match notifier with
  | .log =>
    let parts : List String :=
      ["-"]
        ++ (if channel_handle ≠ "" then [channel_handle] else [])
        ++ ["[" ++ v.title ++ "](" ++ v.link ++ ")"]
        ++ (if time_ago ≠ "" then ["- " ++ time_ago] else [])
    .text (joinSpace parts)
  | .slack _ =>
    .text ("*New video - " ++ v.channel ++ "* <" ++ v.link ++ "|" ++ v.title ++ ">")
  | .telegram =>
    .panicked "not yet implemented"

/-- How a run of the orchestrator ends: normal `Ok(())`, a returned
`Err`, or an uncaught panic. -/
inductive RunExit where
  | ok : RunExit
  | err (msg : String) : RunExit
  | panicked (msg : String) : RunExit
deriving Repr, DecidableEq

/-- Observable trace of one `RunArgs::run` invocation: the logger lines
emitted, the `notify` invocations actually made (notifier together with
the ordered rendered texts handed to it), and how the run ended. -/
structure RunTrace where
  logs : List String
  notifyCalls : List (Notifier × List String)
  result : RunExit
deriving Repr, DecidableEq

/-- The per-channel loop of `RunArgs::run` (lines 42-51): each channel's
`get_fresh_videos` result (`get_fresh_videos` itself is outside the core:
fetch plus parse plus freshness filter, yielding the channel's fresh
videos or an error) either extends `new_videos` or is logged as an
error; every channel is visited.  Returns the aggregated videos and the
error log lines, each in channel order. -/
def channelPhase : List (Except String (List Video)) → List Video × List String
  | [] => ([], [])
  | .ok videos :: rest =>
    (videos ++ (channelPhase rest).1, (channelPhase rest).2)
  | .error e :: rest =>
    ((channelPhase rest).1, ("Error: " ++ e) :: (channelPhase rest).2)

/-- `new_videos.sort_by(|a, b| b.published_at.cmp(&a.published_at))`:
Rust's `sort_by` is a stable sort; an element `a` may stay before `b`
exactly when the comparator does not order `a` after `b`, i.e. when
`b.published_at ≤ a.published_at`.  `List.mergeSort` is the stable sort
with that predicate. -/
def sortVideos (videos : List Video) : List Video :=
  videos.mergeSort (fun a b => b.published_at ≤ a.published_at)

/-- The `new_videos.iter().map(|v| v.notification_text(notifier))`
collection (lines 62-65): rendering in order; a panic (the `Telegram`
arm) aborts at the first video. -/
def renderAll (notifier : Notifier) (now : Int) : List Video → Except String (List String)
  | [] => .ok []
  | v :: rest =>
    match notificationText v notifier now with
    | .panicked m => .error m
    | .text t =>
      match renderAll notifier now rest with
      | .error m => .error m
      | .ok ts => .ok (t :: ts)

/-- The per-sink loop of `RunArgs::run` (lines 61-73).  `notifyRes`
models the external `Notifier::notify` transport outcome.  Returns the
error-log lines, the `notify` calls made, and `some msg` when a
formatting panic aborted the loop (skipping all later sinks). -/
def sinkPhase (videos : List Video) (notifyRes : Notifier → List String → Except String Unit)
    (now : Int) : List Notifier → List String × List (Notifier × List String) × Option String
  | [] => ([], [], none)
  | notifier :: rest =>
    match renderAll notifier now videos with
    | .error m => ([], [], some m)
    | .ok texts =>
      let logsHere : List String :=
        match notifyRes notifier texts with
        | .ok _ => []
        | .error e => ["Error: " ++ e]
      let tail := sinkPhase videos notifyRes now rest
      (logsHere ++ tail.1, (notifier, texts) :: tail.2.1, tail.2.2)

/-- `RunArgs::run` (`cli/bin/cmd/run.rs`, lines 40-77), starting after the
external settings/watermark reads: `fetchResults` are the per-channel
`get_fresh_videos` outcomes, `notifiers` the configured sinks,
`notifyRes` the external transport outcomes, and `touchResult` the
outcome of the external `settings.touch_last_run_at()` (propagated with
`?`).  An empty aggregate logs "No new videos found." and returns `Ok`
before any sink or the touch; otherwise the aggregate is sorted newest
first and every sink is notified, notification errors being logged and
swallowed. -/
def run (fetchResults : List (Except String (List Video))) (notifiers : List Notifier)
    (notifyRes : Notifier → List String → Except String Unit)
    (touchResult : Except String Unit) (now : Int) : RunTrace :=
  let new_videos := (channelPhase fetchResults).1
  let chLogs := (channelPhase fetchResults).2
  if new_videos = [] then
    { logs := chLogs ++ ["No new videos found."], notifyCalls := [], result := .ok }
  else
    let phase := sinkPhase (sortVideos new_videos) notifyRes now notifiers
    match phase.2.2 with
    | some m => { logs := chLogs ++ phase.1, notifyCalls := phase.2.1, result := .panicked m }
    | none =>
      match touchResult with
      | .error e => { logs := chLogs ++ phase.1, notifyCalls := phase.2.1, result := .err e }
      | .ok _ => { logs := chLogs ++ phase.1, notifyCalls := phase.2.1, result := .ok }

/-- Whether an outcome is a normal return. -/
def ParseOutcome.isOk {α : Type} : ParseOutcome α → Bool
  | .ok _ => true
  | _ => false

/-- A feed entry is well-formed when it has a string `title`, a string
`published` that the date parser accepts, and a string `link.@href` —
exactly the fields `Video::parse_rss` requires of an entry. -/
def WellFormedEntry (parseDT : String → Option Int) (e : Json) : Prop :=
  ((e.get "title").asStr).isSome = true ∧
  (((e.get "published").asStr.bind parseDT)).isSome = true ∧
  (((e.get "link").get "@href").asStr).isSome = true

instance (parseDT : String → Option Int) (e : Json) : Decidable (WellFormedEntry parseDT e) :=
  inferInstanceAs (Decidable (_ ∧ _ ∧ _))

/-- A raw feed document is malformed when the XML-to-JSON conversion
fails, or the feed-level channel name is missing, or some entry the feed
claims to contain is not well-formed. -/
def MalformedDoc (to_json : String → Option Json) (parseDT : String → Option Int)
    (rss_data : String) : Prop :=
  to_json rss_data = none ∨
  ∃ j, to_json rss_data = some j ∧
    ((((j.get "feed").get "author").get "name").asStr = none ∨
     ∃ es, ((j.get "feed").get "entry").asArr = some es ∧
       ∃ e ∈ es, ¬ WellFormedEntry parseDT e)

/-! ### Concrete fixtures used by witnesses -/

/-- A well-formed feed entry fixture. -/
def sampleEntry1 : Json :=
  .obj [("title", .str "Video One"), ("published", .str "2024-01-01T00:00:00Z"),
        ("link", .obj [("@href", .str "https://yt/v1")])]

/-- A second well-formed feed entry fixture. -/
def sampleEntry2 : Json :=
  .obj [("title", .str "Video Two"), ("published", .str "2024-01-02T00:00:00Z"),
        ("link", .obj [("@href", .str "https://yt/v2")])]

/-- A feed document fixture with a channel name and two entries. -/
def sampleFeed : Json :=
  .obj [("feed", .obj [("author", .obj [("name", .str "Sample Channel")]),
                       ("entry", .arr [sampleEntry1, sampleEntry2])])]

/-- A concrete date parser accepting exactly the two timestamps of the
fixtures. -/
def sampleDT : String → Option Int := fun s =>
  if s = "2024-01-01T00:00:00Z" then some 1704067200
  else if s = "2024-01-02T00:00:00Z" then some 1704153600
  else none

/-- A video fixture with a handle. -/
def sampleVideoA : Video :=
  { channel := "Chan A", channel_handle := some "@chanA", title := "Alpha",
    link := "https://yt/a", published_at := 100 }

/-- A video fixture without a handle. -/
def sampleVideoB : Video :=
  { channel := "Chan B", channel_handle := none, title := "Beta",
    link := "https://yt/b", published_at := 200 }

/-- A video fixture sharing `published_at` with `sampleVideoB`. -/
def sampleVideoC : Video :=
  { channel := "Chan C", channel_handle := some "@chanC", title := "Gamma",
    link := "https://yt/c", published_at := 200 }

/-! ### Arithmetic helpers for `format_time_ago` -/

theorem tdiv_pos_of_le {e d : Int} (hd : 0 < d) (h : d ≤ e) : 0 < e.tdiv d := by
  rw [Int.tdiv_eq_ediv (by omega) (by omega)]
  have := Int.le_ediv_iff_mul_le hd (a := 1) (b := e)
  omega

theorem tdiv_eq_zero_of_lt {e d : Int} (h0 : 0 ≤ e) (h : e < d) : e.tdiv d = 0 := by
  rw [Int.tdiv_eq_ediv h0 (by omega)]
  exact Int.ediv_eq_zero_of_lt h0 h

theorem tdiv_nonpos_of_neg {e d : Int} (he : e < 0) (hd : 0 ≤ d) : e.tdiv d ≤ 0 := by
  have hneg : (-e).tdiv d = -(e.tdiv d) := by rw [← Int.neg_tdiv]
  have hnn : 0 ≤ (-e).tdiv d := Int.tdiv_nonneg (by omega) hd
  omega

/-- `format_time_ago` on an elapsed time of at least one minute but less
than one hour takes the minute branch. -/
theorem formatTimeAgo_minutes (now pub : Int) (h1 : 60 ≤ now - pub) (h2 : now - pub < 3600) :
    formatTimeAgo now pub =
      (if (now - pub).tdiv 60 = 1 then "1 minute ago"
       else toString ((now - pub).tdiv 60) ++ " minutes ago") := by
  have hh : (now - pub).tdiv 3600 = 0 := tdiv_eq_zero_of_lt (by omega) h2
  have hm : 0 < (now - pub).tdiv 60 := tdiv_pos_of_le (by norm_num) h1
  simp only [formatTimeAgo, hh]
  norm_num
  intro h3
  omega

/-- `format_time_ago` on an elapsed time of at least one hour takes the
hour branch. -/
theorem formatTimeAgo_hours (now pub : Int) (h1 : 3600 ≤ now - pub) :
    formatTimeAgo now pub =
      (if (now - pub).tdiv 3600 = 1 then "1 hour ago"
       else toString ((now - pub).tdiv 3600) ++ " hours ago") := by
  have hh : 0 < (now - pub).tdiv 3600 := tdiv_pos_of_le (by norm_num) h1
  simp only [formatTimeAgo]
  rw [if_pos hh]

/-- `format_time_ago` on an elapsed time below one minute yields the
literal phrase. -/
theorem formatTimeAgo_justNow (now pub : Int) (h1 : 0 ≤ now - pub) (h2 : now - pub < 60) :
    formatTimeAgo now pub = "just now" := by
  have hh : (now - pub).tdiv 3600 = 0 := tdiv_eq_zero_of_lt h1 (by omega)
  have hm : (now - pub).tdiv 60 = 0 := tdiv_eq_zero_of_lt h1 h2
  simp [formatTimeAgo, hh, hm]

/-- C3 counterexample: at exactly 90 minutes elapsed, `format_time_ago`
produces "1 hour ago" (hour granularity starts at one hour), not the
"90 minutes ago" the claim states. -/
theorem C3_ninety_minutes_cex :
    formatTimeAgo 5400 0 = "1 hour ago" ∧ formatTimeAgo 5400 0 ≠ "90 minutes ago" := by
  constructor <;> decide

/-- C3 (amended): the relative-time phrase from `now - published_at` is
"just now" for 0-59 elapsed seconds, "1 minute ago" at exactly one
minute, "1 hour ago" at exactly one hour, "1 hour ago" (not "90 minutes
ago") at 90 minutes, and "25 hours ago" at 25 hours; in general the
phrasing is minute-granularity strictly below one hour and
hour-granularity at or above one hour, truncating toward zero. -/
theorem C3_relative_time_phrases :
    (∀ now pub : Int, 0 ≤ now - pub → now - pub ≤ 59 → formatTimeAgo now pub = "just now") ∧
    (∀ now pub : Int, now - pub = 60 → formatTimeAgo now pub = "1 minute ago") ∧
    (∀ now pub : Int, now - pub = 3600 → formatTimeAgo now pub = "1 hour ago") ∧
    (∀ now pub : Int, now - pub = 5400 → formatTimeAgo now pub = "1 hour ago") ∧
    (∀ now pub : Int, now - pub = 90000 → formatTimeAgo now pub = "25 hours ago") ∧
    (∀ now pub : Int, 60 ≤ now - pub → now - pub < 3600 →
      formatTimeAgo now pub =
        (if (now - pub).tdiv 60 = 1 then "1 minute ago"
         else toString ((now - pub).tdiv 60) ++ " minutes ago")) ∧
    (∀ now pub : Int, 3600 ≤ now - pub →
      formatTimeAgo now pub =
        (if (now - pub).tdiv 3600 = 1 then "1 hour ago"
         else toString ((now - pub).tdiv 3600) ++ " hours ago")) := by
  refine ⟨?_, ?_, ?_, ?_, ?_, ?_, ?_⟩
  · exact fun now pub h1 h2 => formatTimeAgo_justNow now pub h1 (by omega)
  · intro now pub h
    rw [formatTimeAgo_minutes now pub (by omega) (by omega), h]
    decide
  · intro now pub h
    rw [formatTimeAgo_hours now pub (by omega), h]
    decide
  · intro now pub h
    rw [formatTimeAgo_hours now pub (by omega), h]
    decide
  · intro now pub h
    rw [formatTimeAgo_hours now pub (by omega), h]
    decide
  · exact formatTimeAgo_minutes
  · exact formatTimeAgo_hours

/-- Witness for C3: the phrase table evaluated at concrete elapsed
times 59 s, 60 s, 3600 s, 5400 s and 90000 s. -/
theorem C3_relative_time_phrases_witness :
    formatTimeAgo 59 0 = "just now" ∧ formatTimeAgo 60 0 = "1 minute ago" ∧
    formatTimeAgo 3600 0 = "1 hour ago" ∧ formatTimeAgo 5400 0 = "1 hour ago" ∧
    formatTimeAgo 90000 0 = "25 hours ago" :=
  ⟨C3_relative_time_phrases.1 59 0 (by decide) (by decide),
   C3_relative_time_phrases.2.1 60 0 (by decide),
   C3_relative_time_phrases.2.2.1 3600 0 (by decide),
   C3_relative_time_phrases.2.2.2.1 5400 0 (by decide),
   C3_relative_time_phrases.2.2.2.2.1 90000 0 (by decide)⟩

/-- C9: when `published_at` lies in the future (negative elapsed
duration), `format_time_ago` returns "just now" — truncation toward zero
makes both the hour and the minute guard fail — so the formatter is
total over all timestamps and never emits a negative phrase. -/
theorem C9_future_published_just_now (now pub : Int) (h : now < pub) :
    formatTimeAgo now pub = "just now" := by
  have hh : (now - pub).tdiv 3600 ≤ 0 := tdiv_nonpos_of_neg (by omega) (by norm_num)
  have hm : (now - pub).tdiv 60 ≤ 0 := tdiv_nonpos_of_neg (by omega) (by norm_num)
  simp only [formatTimeAgo]
  rw [if_neg (by omega), if_neg (by omega)]

/-- Witness for C9: a video published 5 seconds in the future is
formatted as "just now". -/
theorem C9_future_published_just_now_witness : formatTimeAgo 0 5 = "just now" :=
  C9_future_published_just_now 0 5 (by decide)

/-! ### The feed parser (claims C1 and C2) -/

/-- One loop iteration of `parse_rss` either succeeds on a well-formed
entry — producing a video carrying the given channel name and handle —
or panics on a malformed one; it never produces an `Err`. -/
theorem parseEntry_spec (pd : String → Option Int) (ch : String) (hd : Option String)
    (e : Json) :
    (WellFormedEntry pd e ∧ ∃ v, parseEntry pd ch hd e = .ok v ∧
      v.channel = ch ∧ v.channel_handle = hd) ∨
    (¬ WellFormedEntry pd e ∧ ∃ m, parseEntry pd ch hd e = .panicked m) := by
  cases ht : (e.get "title").asStr with
  | none =>
    refine .inr ⟨fun hwf => ?_, "called Option::unwrap on a None value",
      by simp [parseEntry, ht]⟩
    simp [WellFormedEntry, ht] at hwf
  | some t =>
    cases hs : (e.get "published").asStr with
    | none =>
      refine .inr ⟨fun hwf => ?_, "called Option::unwrap on a None value",
        by simp [parseEntry, ht, hs]⟩
      simp [WellFormedEntry, hs] at hwf
    | some s =>
      cases hps : pd s with
      | none =>
        refine .inr ⟨fun hwf => ?_, "Failed to parse DateTime",
          by simp [parseEntry, ht, hs, hps]⟩
        simp [WellFormedEntry, hs, hps] at hwf
      | some n =>
        cases hl : ((e.get "link").get "@href").asStr with
        | none =>
          refine .inr ⟨fun hwf => ?_, "called Option::unwrap on a None value",
            by simp [parseEntry, ht, hs, hps, hl]⟩
          simp [WellFormedEntry, hl] at hwf
        | some l =>
          refine .inl ⟨⟨by simp [ht], by simp [hs, hps], by simp [hl]⟩,
            { channel := ch, channel_handle := hd, title := t, link := l, published_at := n },
            by simp [parseEntry, ht, hs, hps, hl], rfl, rfl⟩

/-- The entry loop succeeds on a list of well-formed entries, producing
one video per entry, all carrying the shared channel name and handle. -/
theorem parseEntries_ok_of_wf (pd : String → Option Int) (ch : String) (hd : Option String) :
    ∀ es : List Json, (∀ e ∈ es, WellFormedEntry pd e) →
      ∃ vs, parseEntries pd ch hd es = .ok vs ∧ vs.length = es.length ∧
        ∀ v ∈ vs, v.channel = ch ∧ v.channel_handle = hd := by
  intro es
  induction es with
  | nil => exact fun _ => ⟨[], rfl, rfl, by simp⟩
  | cons e rest ih =>
    intro hall
    rcases parseEntry_spec pd ch hd e with ⟨_, v, hv, hvc, hvh⟩ | ⟨hn, _⟩
    · obtain ⟨vs, hvs, hlen, hmem⟩ := ih (fun x hx => hall x (by simp [hx]))
      refine ⟨v :: vs, by simp [parseEntries, hv, hvs], by simp [hlen], ?_⟩
      intro w hw
      rcases List.mem_cons.mp hw with rfl | hw2
      · exact ⟨hvc, hvh⟩
      · exact hmem w hw2
    · exact absurd (hall e (by simp)) hn

/-- One malformed entry anywhere in the list makes the whole entry loop
panic. -/
theorem parseEntries_panicked (pd : String → Option Int) (ch : String) (hd : Option String) :
    ∀ es : List Json, ∀ e0 ∈ es, ¬ WellFormedEntry pd e0 →
      ∃ m, parseEntries pd ch hd es = .panicked m := by
  intro es
  induction es with
  | nil => simp
  | cons e rest ih =>
    intro e0 hmem hbad
    rcases parseEntry_spec pd ch hd e with ⟨hwf, v, hv, _, _⟩ | ⟨_, m, hm⟩
    · rcases List.mem_cons.mp hmem with rfl | hrest
      · exact absurd hwf hbad
      · obtain ⟨m, hm⟩ := ih e0 hrest hbad
        exact ⟨m, by simp [parseEntries, hv, hm]⟩
    · exact ⟨m, by simp [parseEntries, hm]⟩

/-- The entry loop never produces a returned `Err`. -/
theorem parseEntries_not_err (pd : String → Option Int) (ch : String) (hd : Option String) :
    ∀ es : List Json, (parseEntries pd ch hd es).isErr = false := by
  intro es
  induction es with
  | nil => rfl
  | cons e rest ih =>
    rcases parseEntry_spec pd ch hd e with ⟨_, v, hv, _, _⟩ | ⟨_, m, hm⟩
    · cases hrec : parseEntries pd ch hd rest with
      | ok vs => simp [parseEntries, hv, hrec, ParseOutcome.isErr]
      | err m2 => rw [hrec] at ih; exact absurd ih (by simp [ParseOutcome.isErr])
      | panicked m2 => simp [parseEntries, hv, hrec, ParseOutcome.isErr]
    · simp [parseEntries, hm, ParseOutcome.isErr]

/-- C1 counterexample: on a payload the XML-to-JSON conversion rejects,
`parse_rss` panics (via `expect`) instead of returning an `Err` — the
claimed `Err` result never happens. -/
theorem C1_returns_err_cex :
    parse_rss (fun _ => none) (fun _ => none) "not xml" none =
      .panicked "Failed to convert XML to JSON" ∧
    (parse_rss (fun _ => none) (fun _ => none) "not xml" none).isErr = false :=
  ⟨rfl, rfl⟩

/-- C1 (amended): for every raw feed payload that cannot be decoded as
the expected feed structure, or whose channel name is missing, or that
contains an entry missing a required field (title, link, or a parseable
published timestamp), `parse_rss` panics (`unwrap`/`expect`) rather than
returning an `Err`; indeed it never returns `Err` on any input.  Failure
is per-document: one malformed entry aborts the whole channel's parse. -/
theorem C1_malformed_parse_panics (tj : String → Option Json) (pd : String → Option Int)
    (rss : String) (hd : Option String) :
    (MalformedDoc tj pd rss → ∃ m, parse_rss tj pd rss hd = .panicked m) ∧
    (parse_rss tj pd rss hd).isErr = false := by
  constructor
  · intro hmal
    rcases hmal with hnone | ⟨j, hj, hbad⟩
    · exact ⟨"Failed to convert XML to JSON", by simp [parse_rss, hnone]⟩
    · cases hname : (((j.get "feed").get "author").get "name").asStr with
      | none => exact ⟨"called Option::unwrap on a None value", by simp [parse_rss, hj, hname]⟩
      | some ch =>
        rcases hbad with hname2 | ⟨es, hes, e0, hmem, hbad⟩
        · rw [hname] at hname2; cases hname2
        · obtain ⟨m, hm⟩ := parseEntries_panicked pd ch hd es e0 hmem hbad
          exact ⟨m, by simp [parse_rss, hj, hname, hes, hm]⟩
  · cases hnone : tj rss with
    | none => simp [parse_rss, hnone, ParseOutcome.isErr]
    | some j =>
      cases hname : (((j.get "feed").get "author").get "name").asStr with
      | none => simp [parse_rss, hnone, hname, ParseOutcome.isErr]
      | some ch =>
        cases hes : ((j.get "feed").get "entry").asArr with
        | none => simp [parse_rss, hnone, hname, hes, ParseOutcome.isErr]
        | some es => simp [parse_rss, hnone, hname, hes, parseEntries_not_err]

/-- Witness for C1: a payload the converter rejects makes `parse_rss`
panic, and the result is not an `Err`. -/
theorem C1_malformed_parse_panics_witness :
    (∃ m, parse_rss (fun _ => none) (fun _ => some 0) "bad doc" (some "@h") = .panicked m) ∧
    (parse_rss (fun _ => none) (fun _ => some 0) "bad doc" (some "@h")).isErr = false :=
  ⟨(C1_malformed_parse_panics (fun _ => none) (fun _ => some 0) "bad doc" (some "@h")).1
      (Or.inl rfl),
   (C1_malformed_parse_panics (fun _ => none) (fun _ => some 0) "bad doc" (some "@h")).2⟩

/-- C2: on a decodable feed with a channel name, a feed whose `entry`
field is absent parses to `Ok` with the empty list, and a feed with `N`
well-formed entries parses to `Ok` with exactly `N` videos, each
carrying the feed-level channel display name and the supplied handle. -/
theorem C2_parse_rss_well_formed (tj : String → Option Json) (pd : String → Option Int)
    (rss : String) (hd : Option String) (j : Json) (ch : String)
    (hj : tj rss = some j)
    (hname : (((j.get "feed").get "author").get "name").asStr = some ch) :
    (((j.get "feed").get "entry").asArr = none → parse_rss tj pd rss hd = .ok []) ∧
    (∀ es, ((j.get "feed").get "entry").asArr = some es →
      (∀ e ∈ es, WellFormedEntry pd e) →
      ∃ vs, parse_rss tj pd rss hd = .ok vs ∧ vs.length = es.length ∧
        ∀ v ∈ vs, v.channel = ch ∧ v.channel_handle = hd) := by
  constructor
  · intro hes; simp [parse_rss, hj, hname, hes]
  · intro es hes hall
    obtain ⟨vs, hvs, hlen, hmem⟩ := parseEntries_ok_of_wf pd ch hd es hall
    exact ⟨vs, by simp [parse_rss, hj, hname, hes, hvs], hlen, hmem⟩

/-- Witness for C2: the two-entry fixture feed parses to exactly two
videos sharing the channel name and the supplied handle. -/
theorem C2_parse_rss_well_formed_witness :
    ∃ vs, parse_rss (fun _ => some sampleFeed) sampleDT "raw xml" (some "@sample") = .ok vs ∧
      vs.length = 2 ∧
      ∀ v ∈ vs, v.channel = "Sample Channel" ∧ v.channel_handle = some "@sample" :=
  (C2_parse_rss_well_formed (fun _ => some sampleFeed) sampleDT "raw xml" (some "@sample")
      sampleFeed "Sample Channel" rfl rfl).2
    [sampleEntry1, sampleEntry2] rfl (by decide)

/-! ### The notification formatter (claims C5 and C10) -/

theorem append_ne_empty_right (a b : String) (hb : 0 < b.length) : a ++ b ≠ "" := by
  intro h
  have hl := congrArg String.length h
  rw [String.length_append] at hl
  have h0 : ("" : String).length = 0 := rfl
  omega

/-- The relative-time phrase is never the empty string, so the `Log`
rendering always keeps its trailing time component. -/
theorem formatTimeAgo_ne_empty (now pub : Int) : formatTimeAgo now pub ≠ "" := by
  simp only [formatTimeAgo]
  split
  · split
    · decide
    · exact append_ne_empty_right _ _ (by decide)
  · split
    · split
      · decide
      · exact append_ne_empty_right _ _ (by decide)
    · decide

/-- C5: the `Log`-variant rendering is the single-space join starting
with the dash marker, containing the channel handle exactly when it is
present and non-empty (when it is absent the dash is directly followed
by the markdown pair, with no doubled separator), always containing the
literal `[title](link)` pair, and ending with a dash-prefixed relative
time phrase. -/
theorem C5_log_rendering (v : Video) (now : Int) :
    notificationText v .log now =
      .text (if v.channel_handle.getD "" = "" then
          "- [" ++ v.title ++ "](" ++ v.link ++ ") - " ++ formatTimeAgo now v.published_at
        else
          "- " ++ v.channel_handle.getD "" ++ " [" ++ v.title ++ "](" ++ v.link ++ ") - " ++
            formatTimeAgo now v.published_at) := by
  have hta := formatTimeAgo_ne_empty now v.published_at
  by_cases hh : v.channel_handle.getD "" = ""
  · simp only [notificationText, hh, hta, ne_eq, not_true_eq_false, not_false_eq_true,
      if_true, if_false, ite_true, ite_false, if_pos, List.nil_append, List.cons_append,
      joinSpace]
    simp only [String.append_assoc]
    rfl
  · simp only [notificationText, hh, hta, ne_eq, not_true_eq_false, not_false_eq_true,
      if_true, if_false, ite_true, ite_false, List.nil_append, List.cons_append,
      joinSpace]
    simp only [String.append_assoc]
    rfl

/-- C10: the `Slack` (Chat) rendering depends only on the channel
display name, the link and the title — two videos agreeing on those
three fields render identically whatever their handles, publication
times or the wall clock — and it is the fixed-shape line containing
neither the handle nor a relative-time phrase. -/
theorem C10_chat_rendering_independent (v1 v2 : Video) (cfg : String) (now1 now2 : Int)
    (hc : v1.channel = v2.channel) (hl : v1.link = v2.link) (ht : v1.title = v2.title) :
    notificationText v1 (.slack cfg) now1 = notificationText v2 (.slack cfg) now2 ∧
    notificationText v1 (.slack cfg) now1 =
      .text ("*New video - " ++ v1.channel ++ "* <" ++ v1.link ++ "|" ++ v1.title ++ ">") := by
  constructor
  · simp [notificationText, hc, hl, ht]
  · rfl

/-- Witness for C10: two videos differing only in handle and publication
time render identically for Slack, even at different clock readings. -/
theorem C10_chat_rendering_independent_witness :
    notificationText
        { channel := "Chan", channel_handle := some "@x", title := "T",
          link := "L", published_at := 0 } (.slack "hook") 10 =
      notificationText
        { channel := "Chan", channel_handle := none, title := "T",
          link := "L", published_at := 777 } (.slack "hook") 99 :=
  (C10_chat_rendering_independent
      { channel := "Chan", channel_handle := some "@x", title := "T",
        link := "L", published_at := 0 }
      { channel := "Chan", channel_handle := none, title := "T",
        link := "L", published_at := 777 } "hook" 10 99 rfl rfl rfl).1

/-! ### The global sort (claim C6) -/

/-- C6: the orchestrator's sort produces a permutation of its input that
is non-increasing by `published_at` (most recent first), and it is
stable: two items with equal `published_at` appearing in some order in
the input appear in that same order in the output. -/
theorem C6_sort_descending_stable (vs : List Video) :
    (sortVideos vs).Pairwise (fun a b => b.published_at ≤ a.published_at) ∧
    List.Perm (sortVideos vs) vs ∧
    ∀ a b : Video, a.published_at = b.published_at → List.Sublist [a, b] vs →
      List.Sublist [a, b] (sortVideos vs) := by
  have htrans : ∀ a b c : Video, (decide (b.published_at ≤ a.published_at)) →
      (decide (c.published_at ≤ b.published_at)) →
      (decide (c.published_at ≤ a.published_at)) := by
    intro a b c h1 h2
    simp only [decide_eq_true_eq] at *
    omega
  have htotal : ∀ a b : Video, (decide (b.published_at ≤ a.published_at)) ||
      (decide (a.published_at ≤ b.published_at)) := by
    intro a b
    simp only [Bool.or_eq_true, decide_eq_true_eq]
    omega
  refine ⟨?_, List.mergeSort_perm vs _, ?_⟩
  · have hs := List.sorted_mergeSort htrans htotal vs
    exact hs.imp (fun h => by simpa using h)
  · intro a b hab hsub
    exact List.pair_sublist_mergeSort htrans htotal (by simp [hab]) hsub

/-- Witness for C6: two fixture videos with equal timestamps keep their
input order after sorting a three-element list. -/
theorem C6_sort_descending_stable_witness :
    List.Sublist [sampleVideoB, sampleVideoC]
      (sortVideos [sampleVideoA, sampleVideoB, sampleVideoC]) :=
  (C6_sort_descending_stable [sampleVideoA, sampleVideoB, sampleVideoC]).2.2
    sampleVideoB sampleVideoC rfl
    (List.Sublist.cons sampleVideoA (List.Sublist.refl [sampleVideoB, sampleVideoC]))

/-! ### The dispatch orchestrator (claims C4, C7 and C8) -/

/-- Formatting for the `Log` and `Slack` variants always yields text. -/
theorem notificationText_text_of_ne_telegram (v : Video) (n : Notifier) (now : Int)
    (h : n ≠ .telegram) : ∃ s, notificationText v n now = .text s := by
  cases n with
  | log => exact ⟨_, rfl⟩
  | slack cfg => exact ⟨_, rfl⟩
  | telegram => exact absurd rfl h

/-- Rendering a batch for a non-`Telegram` sink never panics. -/
theorem renderAll_ok_of_ne_telegram (n : Notifier) (now : Int) (h : n ≠ .telegram) :
    ∀ vs : List Video, ∃ ts, renderAll n now vs = .ok ts := by
  intro vs
  induction vs with
  | nil => exact ⟨[], rfl⟩
  | cons v rest ih =>
    obtain ⟨s, hs⟩ := notificationText_text_of_ne_telegram v n now h
    obtain ⟨ts, hts⟩ := ih
    exact ⟨s :: ts, by simp [renderAll, hs, hts]⟩

/-- Rendering a non-empty batch for the `Telegram` sink panics at the
first video. -/
theorem renderAll_telegram_panics (now : Int) (v : Video) (vs : List Video) :
    renderAll .telegram now (v :: vs) = .error "not yet implemented" := rfl

/-- With a non-empty batch, the sink loop aborts with the `todo!` panic
as soon as it reaches a `Telegram` sink. -/
theorem sinkPhase_panics_of_telegram (videos : List Video) (hne : videos ≠ [])
    (notifyRes : Notifier → List String → Except String Unit) (now : Int) :
    ∀ ns : List Notifier, Notifier.telegram ∈ ns →
      (sinkPhase videos notifyRes now ns).2.2 = some "not yet implemented" := by
  intro ns
  induction ns with
  | nil => simp
  | cons n rest ih =>
    intro hmem
    by_cases hn : n = .telegram
    · subst hn
      cases videos with
      | nil => exact absurd rfl hne
      | cons v vs => simp [sinkPhase, renderAll_telegram_panics]
    · obtain ⟨ts, hts⟩ := renderAll_ok_of_ne_telegram n now hn videos
      have hmem2 : Notifier.telegram ∈ rest := by
        rcases List.mem_cons.mp hmem with h | h
        · exact absurd h.symm hn
        · exact h
      simp [sinkPhase, hts, ih hmem2]

/-- Sorting preserves non-emptiness. -/
theorem sortVideos_ne_nil (vs : List Video) (h : vs ≠ []) : sortVideos vs ≠ [] := by
  intro hs
  have hp := List.mergeSort_perm vs (fun a b => b.published_at ≤ a.published_at)
  rw [sortVideos] at hs
  rw [hs] at hp
  exact h hp.nil_eq.symm

/-- C4 counterexample: formatting for the `Telegram` (Deferred) variant
panics (`todo!`) instead of yielding a `FormatError::Unsupported`
result, and the panic crashes the whole run: the later `Log` sink is
never invoked. -/
theorem C4_deferred_sink_cex :
    notificationText sampleVideoA .telegram 0 = .panicked "not yet implemented" ∧
    (run [.ok [sampleVideoA]] [.telegram, .log] (fun _ _ => .ok ()) (.ok ()) 0).result =
      .panicked "not yet implemented" ∧
    (run [.ok [sampleVideoA]] [.telegram, .log] (fun _ _ => .ok ()) (.ok ()) 0).notifyCalls
      = [] := by
  refine ⟨rfl, ?_, ?_⟩ <;>
    simp [run, channelPhase, sortVideos, List.mergeSort, sinkPhase, renderAll,
      notificationText, sampleVideoA]

/-- C4 (amended): formatting an item for the `Telegram` (Deferred)
variant panics with the `todo!` "not yet implemented" panic rather than
producing text or an `Unsupported` error value, and the orchestrator
does not catch it: any run whose aggregate is non-empty and whose sink
list contains the `Telegram` variant aborts with that panic instead of
completing. -/
theorem C4_deferred_sink_panics :
    (∀ (v : Video) (now : Int),
      notificationText v .telegram now = .panicked "not yet implemented") ∧
    (∀ (fetchResults : List (Except String (List Video))) (notifiers : List Notifier)
      (notifyRes : Notifier → List String → Except String Unit)
      (touchResult : Except String Unit) (now : Int),
      Notifier.telegram ∈ notifiers → (channelPhase fetchResults).1 ≠ [] →
      (run fetchResults notifiers notifyRes touchResult now).result =
        .panicked "not yet implemented") := by
  refine ⟨fun v now => rfl, ?_⟩
  intro fetchResults notifiers notifyRes touchResult now hmem hne
  have hsort := sortVideos_ne_nil _ hne
  have hp := sinkPhase_panics_of_telegram (sortVideos (channelPhase fetchResults).1) hsort
    notifyRes now notifiers hmem
  simp [run, hne, hp]

/-- Witness for C4: a concrete run over one fresh video with a
`Telegram` sink aborts with the `todo!` panic. -/
theorem C4_deferred_sink_panics_witness :
    (run [.ok [sampleVideoB]] [.log, .telegram] (fun _ _ => .ok ()) (.ok ()) 5).result =
      .panicked "not yet implemented" :=
  C4_deferred_sink_panics.2 [.ok [sampleVideoB]] [.log, .telegram] (fun _ _ => .ok ()) (.ok ())
    5 (by decide) (by decide)

/-- C7: when the aggregate of fresh videos over all channels is empty,
the run logs "No new videos found.", returns `Ok`, and invokes no
sink. -/
theorem C7_empty_aggregate_ok (fetchResults : List (Except String (List Video)))
    (notifiers : List Notifier) (notifyRes : Notifier → List String → Except String Unit)
    (touchResult : Except String Unit) (now : Int)
    (hempty : (channelPhase fetchResults).1 = []) :
    (run fetchResults notifiers notifyRes touchResult now).result = .ok ∧
    (run fetchResults notifiers notifyRes touchResult now).notifyCalls = [] ∧
    "No new videos found." ∈ (run fetchResults notifiers notifyRes touchResult now).logs := by
  simp [run, hempty]

/-- Witness for C7: a run over one failing channel and one empty channel
ends `Ok`, calls no sink, and logs the message. -/
theorem C7_empty_aggregate_ok_witness :
    (run [.error "x", .ok []] [.log] (fun _ _ => .ok ()) (.ok ()) 0).result = .ok ∧
    (run [.error "x", .ok []] [.log] (fun _ _ => .ok ()) (.ok ()) 0).notifyCalls = [] ∧
    "No new videos found." ∈
      (run [.error "x", .ok []] [.log] (fun _ _ => .ok ()) (.ok ()) 0).logs :=
  C7_empty_aggregate_ok [.error "x", .ok []] [.log] (fun _ _ => .ok ()) (.ok ()) 0 rfl

/-- A channel fetch error is logged by the channel loop. -/
theorem channelPhase_err_mem (e : String) :
    ∀ frs : List (Except String (List Video)), Except.error e ∈ frs →
      ("Error: " ++ e) ∈ (channelPhase frs).2 := by
  intro frs
  induction frs with
  | nil => simp
  | cons r rest ih =>
    intro hmem
    rcases List.mem_cons.mp hmem with rfl | h
    · simp [channelPhase]
    · cases r with
      | ok vs => simpa [channelPhase] using ih h
      | error e2 => simp [channelPhase, ih h]

/-- Every successfully fetched channel contributes all its videos to the
aggregate, whatever the other channels did. -/
theorem channelPhase_ok_mem (vs : List Video) :
    ∀ frs : List (Except String (List Video)), Except.ok vs ∈ frs →
      ∀ v ∈ vs, v ∈ (channelPhase frs).1 := by
  intro frs
  induction frs with
  | nil => simp
  | cons r rest ih =>
    intro hmem v hv
    rcases List.mem_cons.mp hmem with rfl | h
    · simp [channelPhase, hv]
    · cases r with
      | ok vs2 => simp [channelPhase, ih h v hv]
      | error e2 => simpa [channelPhase] using ih h v hv

/-- With no `Telegram` sink, the sink loop never panics and invokes
every configured sink in order. -/
theorem sinkPhase_no_telegram (videos : List Video)
    (notifyRes : Notifier → List String → Except String Unit) (now : Int) :
    ∀ ns : List Notifier, (∀ n ∈ ns, n ≠ Notifier.telegram) →
      (sinkPhase videos notifyRes now ns).2.2 = none ∧
      ((sinkPhase videos notifyRes now ns).2.1).map Prod.fst = ns := by
  intro ns
  induction ns with
  | nil => exact fun _ => ⟨rfl, rfl⟩
  | cons n rest ih =>
    intro hall
    obtain ⟨ts, hts⟩ := renderAll_ok_of_ne_telegram n now (hall n (by simp)) videos
    obtain ⟨h1, h2⟩ := ih (fun x hx => hall x (by simp [hx]))
    constructor
    · simp [sinkPhase, hts, h1]
    · simp [sinkPhase, hts, h2]

/-- A failed `notify` of any sink the loop reached is logged. -/
theorem sinkPhase_notify_err_logged (videos : List Video)
    (notifyRes : Notifier → List String → Except String Unit) (now : Int) :
    ∀ ns : List Notifier, ∀ c ∈ (sinkPhase videos notifyRes now ns).2.1,
      ∀ e, notifyRes c.1 c.2 = .error e →
        ("Error: " ++ e) ∈ (sinkPhase videos notifyRes now ns).1 := by
  intro ns
  induction ns with
  | nil => intro c hc; simp [sinkPhase] at hc
  | cons n rest ih =>
    intro c hc e he
    cases hra : renderAll n now videos with
    | error m => rw [sinkPhase, hra] at hc; simp at hc
    | ok ts =>
      rw [sinkPhase, hra] at hc ⊢
      simp only [List.mem_cons] at hc
      rcases hc with rfl | hc
      · simp only at he ⊢
        rw [he]
        simp
      · have := ih c hc e he
        rcases hnr : notifyRes n ts with _ | e2 <;> simp [hnr, this]

/-- C8 counterexample: with a `Telegram` sink between two others, the
run does not complete `Ok` and the later `Log` sink is never attempted —
failure isolation does not hold for every run, as the claim states. -/
theorem C8_failure_isolation_cex :
    (run [.ok [sampleVideoA], .error "net down"] [.slack "hook", .telegram, .log]
        (fun _ _ => .ok ()) (.ok ()) 300).result = .panicked "not yet implemented" ∧
    ((run [.ok [sampleVideoA], .error "net down"] [.slack "hook", .telegram, .log]
        (fun _ _ => .ok ()) (.ok ()) 300).notifyCalls).map Prod.fst = [.slack "hook"] := by
  constructor <;>
    simp [run, channelPhase, sortVideos, List.mergeSort, sinkPhase, renderAll,
      notificationText, sampleVideoA]

/-- C8 (amended): provided no configured sink is the unimplemented
`Telegram` (Deferred) variant — whose formatting panic aborts the run,
see C4 — and the external watermark-persistence step succeeds, the
orchestrator isolates failures: the run returns `Ok`; every channel
fetch error is logged while every successfully fetched channel still
contributes all its videos to the aggregate; when the aggregate is
non-empty every configured sink is invoked exactly once, in order; and
every sink whose `notify` fails has its error logged while the remaining
sinks are still attempted. -/
theorem C8_failure_isolation (fetchResults : List (Except String (List Video)))
    (notifiers : List Notifier) (notifyRes : Notifier → List String → Except String Unit)
    (now : Int) (hnt : ∀ n ∈ notifiers, n ≠ Notifier.telegram) :
    (run fetchResults notifiers notifyRes (.ok ()) now).result = .ok ∧
    (∀ e, Except.error e ∈ fetchResults →
      ("Error: " ++ e) ∈ (run fetchResults notifiers notifyRes (.ok ()) now).logs) ∧
    (∀ vs, Except.ok vs ∈ fetchResults → ∀ v ∈ vs, v ∈ (channelPhase fetchResults).1) ∧
    ((channelPhase fetchResults).1 ≠ [] →
      ((run fetchResults notifiers notifyRes (.ok ()) now).notifyCalls).map Prod.fst
        = notifiers) ∧
    (∀ c ∈ (run fetchResults notifiers notifyRes (.ok ()) now).notifyCalls,
      ∀ e, notifyRes c.1 c.2 = .error e →
        ("Error: " ++ e) ∈ (run fetchResults notifiers notifyRes (.ok ()) now).logs) := by
  by_cases hv : (channelPhase fetchResults).1 = []
  · refine ⟨?_, ?_, ?_, ?_, ?_⟩
    · simp [run, hv]
    · intro e he
      simp only [run, hv, if_true, ite_true, List.mem_append]
      exact Or.inl (channelPhase_err_mem e _ he)
    · exact fun vs h v hv2 => channelPhase_ok_mem vs _ h v hv2
    · exact fun h => absurd hv h
    · intro c hc
      simp [run, hv] at hc
  · obtain ⟨hnone, hmap⟩ := sinkPhase_no_telegram (sortVideos (channelPhase fetchResults).1)
      notifyRes now notifiers hnt
    refine ⟨?_, ?_, ?_, ?_, ?_⟩
    · simp [run, hv, hnone]
    · intro e he
      simp only [run, hv, if_false, ite_false, hnone, List.mem_append]
      exact Or.inl (channelPhase_err_mem e _ he)
    · exact fun vs h v hv2 => channelPhase_ok_mem vs _ h v hv2
    · intro _
      simp [run, hv, hnone, hmap]
    · intro c hc e he
      simp only [run, hv, if_false, ite_false, hnone, List.mem_append] at hc ⊢
      exact Or.inr (sinkPhase_notify_err_logged _ notifyRes now notifiers c hc e he)

/-- Witness for C8: a concrete run with one failing channel and a
failing `Log` transport still returns `Ok`. -/
theorem C8_failure_isolation_witness :
    (run [.ok [sampleVideoC], .error "boom"] [.log] (fun _ _ => .error "transport")
        (.ok ()) 400).result = .ok :=
  (C8_failure_isolation [.ok [sampleVideoC], .error "boom"] [.log]
    (fun _ _ => .error "transport") 400 (by decide)).1
